import Mathlib

/-!
Verification of the residual-block GAN architecture in nets/resnet.py.

The Python networks are shallowly embedded as follows.  Network
construction (the work done by the various __init__ methods) is modelled
by Lean functions building structures of layer descriptors; each Conv2d /
Linear / Embedding descriptor records its channel configuration, the
xavier-uniform gain it was initialised with (none when the code leaves the
framework default initialisation in place), whether it was wrapped in
SpectralNorm, and its current weight values (arbitrary real-valued
functions, which also subsume any rescaling performed at run time by the
external SpectralNorm collaborator).  A forward pass is modelled
symbolically: forward methods build an expression tree (type Expr) of
tensor operations, exactly mirroring the statements of the Python code.
The tree is given two semantics: shapeOf, the (computable) shape semantics
of each PyTorch operation, returning none where PyTorch would raise a
shape error, and evalE, the real-number semantics of each operation.
-/

/-- Xavier-uniform gain values used by the source: math.sqrt(2) and 1.0. -/
inductive Gain where
  | sqrt2
  | one
deriving DecidableEq, Repr

/-- Weight and bias of a Conv2d layer, as arbitrary current values:
weight indexed (out channel, in channel, kernel row, kernel col). -/
structure ConvW where
  w : Nat → Nat → Nat → Nat → ℝ
  b : Nat → ℝ

/-- Learnable scale, shift and epsilon of a BatchNorm2d layer. -/
structure BnW where
  gamma : Nat → ℝ
  beta : Nat → ℝ
  eps : ℝ

/-- Per-class scale and shift of a CategoricalBatchNorm layer, indexed
(class, channel). -/
structure CbnW where
  gamma : Nat → Nat → ℝ
  beta : Nat → Nat → ℝ
  eps : ℝ

/-- Weight and bias of a Linear layer, weight indexed (out, in). -/
structure LinW where
  w : Nat → Nat → ℝ
  b : Nat → ℝ

/-- Weight of an Embedding layer, indexed (class, feature). -/
structure EmbW where
  w : Nat → Nat → ℝ

/-- Descriptor of a torch.nn.Conv2d layer as this code configures it. -/
structure Conv2d where
  in_channels : Nat
  out_channels : Nat
  kernel_size : Nat
  stride : Nat
  padding : Nat
  gain : Option Gain
  sn : Bool
  w : Nat → Nat → Nat → Nat → ℝ
  bias : Nat → ℝ

/-- Descriptor of a torch.nn.Linear layer. -/
structure LinearL where
  in_features : Nat
  out_features : Nat
  gain : Option Gain
  sn : Bool
  w : Nat → Nat → ℝ
  bias : Nat → ℝ

/-- Descriptor of a torch.nn.Embedding layer. -/
structure EmbL where
  num_embeddings : Nat
  embedding_dim : Nat
  gain : Option Gain
  sn : Bool
  w : Nat → Nat → ℝ

/-- Normalisation layer built by Gblock.batch_norm: a plain BatchNorm2d
or (Modelled from the spec: layers/categorical_batch_norm.py is not in
src/) a CategoricalBatchNorm with per-class affine parameters. -/
inductive NormL where
  | plain (num_features : Nat) (w : BnW)
  | categorical (num_features : Nat) (num_categories : Nat) (w : CbnW)

/-- Python truthiness of the optional integer arguments num_categories /
hidden_channels: None and 0 are falsy. -/
def truthy : Option Nat → Bool
  | none => false
  | some n => n != 0

@[simp] lemma truthy_none : truthy none = false := rfl

@[simp] lemma truthy_some (n : Nat) : truthy (some n) = (n != 0) := rfl

/-- Symbolic tensor computations: one constructor per tensor operation
appearing in the forward methods of nets/resnet.py.  normLS is a
normalisation layer called with a label argument, normLN one called with
an explicit None label, norm one called with no label argument. -/
inductive Expr where
  | input
  | labelInput
  | conv (c : Conv2d) (e : Expr)
  | norm (nl : NormL) (e : Expr)
  | normLS (nl : NormL) (lab : Expr) (e : Expr)
  | normLN (nl : NormL) (e : Expr)
  | relu (e : Expr)
  | tanh (e : Expr)
  | upsample2 (e : Expr)
  | avg_pool2 (e : Expr)
  | add (a : Expr) (b : Expr)
  | mul (a : Expr) (b : Expr)
  | linear (l : LinearL) (e : Expr)
  | embed (l : EmbL) (lab : Expr)
  | sumSpatial (e : Expr)
  | sumDim1Keep (e : Expr)
  | view4 (bw : Nat) (e : Expr)

/-- Call a normalisation layer the way Gblock.forward does when it passes
the label through: bn(x, y), where y may itself be None. -/
def normCall (nl : NormL) (y : Option Expr) (e : Expr) : Expr :=
  match y with
  | some lab => Expr.normLS nl lab e
  | none => Expr.normLN nl e

/-- Output spatial extent of a convolution dimension: PyTorch raises when
the kernel exceeds the padded input. -/
def convOutDim (h k s p : Nat) : Option Nat :=
  if k ≤ h + 2 * p then some ((h + 2 * p - k) / s + 1) else none

/-- Shape semantics of the tensor operations, with inS the shape of the
main input tensor and lblS the shape of the label tensor; none models a
PyTorch error (shape mismatch, missing label, wrong call arity). -/
def shapeOf (inS lblS : List Nat) : Expr → Option (List Nat)
  | Expr.input => some inS
  | Expr.labelInput => some lblS
  | Expr.conv c e =>
      match shapeOf inS lblS e with
      | some [n, ci, h, w] =>
          if ci = c.in_channels then
            match convOutDim h c.kernel_size c.stride c.padding,
                  convOutDim w c.kernel_size c.stride c.padding with
            | some h2, some w2 => some [n, c.out_channels, h2, w2]
            | _, _ => none
          else none
      | _ => none
  | Expr.norm nl e =>
      match shapeOf inS lblS e with
      | some [n, c, h, w] =>
          match nl with
          | NormL.plain f _ => if c = f then some [n, c, h, w] else none
          | NormL.categorical _ _ _ => none
      | _ => none
  | Expr.normLS nl lab e =>
      match shapeOf inS lblS e, shapeOf inS lblS lab with
      | some [n, c, h, w], some [m] =>
          match nl with
          | NormL.plain _ _ => none
          | NormL.categorical f _ _ => if c = f ∧ m = n then some [n, c, h, w] else none
      | _, _ => none
  | Expr.normLN _ _ => none
  | Expr.relu e => shapeOf inS lblS e
  | Expr.tanh e => shapeOf inS lblS e
  | Expr.upsample2 e =>
      match shapeOf inS lblS e with
      | some [n, c, h, w] => if 1 ≤ h ∧ 1 ≤ w then some [n, c, 2 * h, 2 * w] else none
      | _ => none
  | Expr.avg_pool2 e =>
      match shapeOf inS lblS e with
      | some [n, c, h, w] => if 2 ≤ h ∧ 2 ≤ w then some [n, c, h / 2, w / 2] else none
      | _ => none
  | Expr.add a b =>
      match shapeOf inS lblS a, shapeOf inS lblS b with
      | some s1, some s2 => if s1 = s2 then some s1 else none
      | _, _ => none
  | Expr.mul a b =>
      match shapeOf inS lblS a, shapeOf inS lblS b with
      | some s1, some s2 => if s1 = s2 then some s1 else none
      | _, _ => none
  | Expr.linear l e =>
      match shapeOf inS lblS e with
      | some s =>
          match s.reverse with
          | f :: rest => if f = l.in_features then some ((l.out_features :: rest).reverse) else none
          | [] => none
      | none => none
  | Expr.embed l lab =>
      match shapeOf inS lblS lab with
      | some s => some (s ++ [l.embedding_dim])
      | none => none
  | Expr.sumSpatial e =>
      match shapeOf inS lblS e with
      | some [n, c, _, _] => some [n, c]
      | _ => none
  | Expr.sumDim1Keep e =>
      match shapeOf inS lblS e with
      | some (n :: _ :: rest) => some (n :: 1 :: rest)
      | _ => none
  | Expr.view4 bw e =>
      match shapeOf inS lblS e with
      | some [n, f] => if bw * bw ∣ f then some [n, f / (bw * bw), bw, bw] else none
      | _ => none

/-- Real-number semantics of the tensor operations: inD and lblD are the
data of the input and label tensors as functions from index lists.
Convolution, batch normalisation (training-mode batch statistics),
nearest-neighbour interpolation, average pooling, linear, embedding and
the reductions follow their PyTorch definitions; out-of-shape indices and
erroring calls evaluate to 0 (the shape semantics already rules them
out).  The categorical normalisation case is Modelled from the spec:
layers/categorical_batch_norm.py is not in src/, and section 6 specifies
per-class affine (scale/shift) normalisation selected by the label. -/
noncomputable def evalE (inS lblS : List Nat) (inD lblD : List Nat → ℝ) : Expr → (List Nat → ℝ)
  | Expr.input => inD
  | Expr.labelInput => lblD
  | Expr.conv c e =>
      let sub := evalE inS lblS inD lblD e
      match shapeOf inS lblS e with
      | some [_, _, h, w] => fun idx =>
          match idx with
          | [n, co, i, j] =>
              c.bias co + ∑ ci ∈ Finset.range c.in_channels, ∑ a ∈ Finset.range c.kernel_size,
                ∑ bb ∈ Finset.range c.kernel_size,
                  c.w co ci a bb *
                    (if c.padding ≤ i * c.stride + a ∧ i * c.stride + a < h + c.padding ∧
                        c.padding ≤ j * c.stride + bb ∧ j * c.stride + bb < w + c.padding
                     then sub [n, ci, i * c.stride + a - c.padding, j * c.stride + bb - c.padding]
                     else 0)
          | _ => 0
      | _ => fun _ => 0
  | Expr.norm nl e =>
      let sub := evalE inS lblS inD lblD e
      match nl, shapeOf inS lblS e with
      | NormL.plain _ bw, some [n, _, h, w] =>
          let count : ℝ := ((n * h * w : Nat) : ℝ)
          let mean := fun c => (∑ nn ∈ Finset.range n, ∑ i ∈ Finset.range h,
            ∑ j ∈ Finset.range w, sub [nn, c, i, j]) / count
          let vr := fun c => (∑ nn ∈ Finset.range n, ∑ i ∈ Finset.range h,
            ∑ j ∈ Finset.range w, (sub [nn, c, i, j] - mean c) ^ 2) / count
          fun idx =>
            match idx with
            | [nn, c, i, j] =>
                bw.gamma c * ((sub [nn, c, i, j] - mean c) / Real.sqrt (vr c + bw.eps)) + bw.beta c
            | _ => 0
      | _, _ => fun _ => 0
  | Expr.normLS nl lab e =>
      let sub := evalE inS lblS inD lblD e
      let lsub := evalE inS lblS inD lblD lab
      match nl, shapeOf inS lblS e with
      | NormL.categorical _ _ cw, some [n, _, h, w] =>
          let count : ℝ := ((n * h * w : Nat) : ℝ)
          let mean := fun c => (∑ nn ∈ Finset.range n, ∑ i ∈ Finset.range h,
            ∑ j ∈ Finset.range w, sub [nn, c, i, j]) / count
          let vr := fun c => (∑ nn ∈ Finset.range n, ∑ i ∈ Finset.range h,
            ∑ j ∈ Finset.range w, (sub [nn, c, i, j] - mean c) ^ 2) / count
          fun idx =>
            match idx with
            | [nn, c, i, j] =>
                let cls := Int.toNat ⌊lsub [nn]⌋
                cw.gamma cls c * ((sub [nn, c, i, j] - mean c) / Real.sqrt (vr c + cw.eps)) +
                  cw.beta cls c
            | _ => 0
      | _, _ => fun _ => 0
  | Expr.normLN _ _ => fun _ => 0
  | Expr.relu e => fun idx => max (evalE inS lblS inD lblD e idx) 0
  | Expr.tanh e => fun idx => Real.tanh (evalE inS lblS inD lblD e idx)
  | Expr.upsample2 e =>
      let sub := evalE inS lblS inD lblD e
      fun idx =>
        match idx with
        | [n, c, i, j] => sub [n, c, i / 2, j / 2]
        | _ => 0
  | Expr.avg_pool2 e =>
      let sub := evalE inS lblS inD lblD e
      fun idx =>
        match idx with
        | [n, c, i, j] =>
            (sub [n, c, 2 * i, 2 * j] + sub [n, c, 2 * i, 2 * j + 1] +
              sub [n, c, 2 * i + 1, 2 * j] + sub [n, c, 2 * i + 1, 2 * j + 1]) / 4
        | _ => 0
  | Expr.add a b => fun idx => evalE inS lblS inD lblD a idx + evalE inS lblS inD lblD b idx
  | Expr.mul a b => fun idx => evalE inS lblS inD lblD a idx * evalE inS lblS inD lblD b idx
  | Expr.linear l e =>
      let sub := evalE inS lblS inD lblD e
      fun idx =>
        l.bias (idx.getLastD 0) +
          ∑ f ∈ Finset.range l.in_features, l.w (idx.getLastD 0) f * sub (idx.dropLast ++ [f])
  | Expr.embed l lab =>
      let lsub := evalE inS lblS inD lblD lab
      fun idx => l.w (Int.toNat ⌊lsub idx.dropLast⌋) (idx.getLastD 0)
  | Expr.sumSpatial e =>
      let sub := evalE inS lblS inD lblD e
      match shapeOf inS lblS e with
      | some [_, _, h, w] => fun idx =>
          match idx with
          | [n, c] => ∑ i ∈ Finset.range h, ∑ j ∈ Finset.range w, sub [n, c, i, j]
          | _ => 0
      | _ => fun _ => 0
  | Expr.sumDim1Keep e =>
      let sub := evalE inS lblS inD lblD e
      match shapeOf inS lblS e with
      | some (_ :: f :: _) => fun idx =>
          match idx with
          | n :: _ :: rest2 => ∑ k ∈ Finset.range f, sub (n :: k :: rest2)
          | _ => 0
      | _ => fun _ => 0
  | Expr.view4 bw e =>
      let sub := evalE inS lblS inD lblD e
      fun idx =>
        match idx with
        | [n, c, i, j] => sub [n, c * (bw * bw) + i * bw + j]
        | _ => 0

/-- Convolution weights for the base residual block: conv1, conv2 and the
1x1 skip convolution. -/
structure BlockW where
  c1 : ConvW
  c2 : ConvW
  sc : ConvW

/-- The base residual block Block of nets/resnet.py: channel
configuration, optimized flag, the two main convolutions, and the
optional 1x1 skip convolution. -/
structure Block where
  in_channels : Nat
  out_channels : Nat
  hidden_channels : Nat
  optimized : Bool
  conv1 : Conv2d
  conv2 : Conv2d
  s_conv : Option Conv2d

/-- Block.__init__: hidden_channels defaults to out_channels when falsy,
conv1 and conv2 are xavier-initialised with gain sqrt(2), and the 1x1
skip convolution (gain 1.0) exists iff in_channels differs from
out_channels or the block is optimized. -/
def Block.init (in_channels out_channels : Nat) (hidden_channels : Option Nat)
    (kernel_size stride padding : Nat) (optimized : Bool) (bw : BlockW) : Block :=
  let hidden := if truthy hidden_channels then hidden_channels.getD 0 else out_channels
  { in_channels := in_channels
    out_channels := out_channels
    hidden_channels := hidden
    optimized := optimized
    conv1 := { in_channels := in_channels, out_channels := hidden, kernel_size := kernel_size,
               stride := stride, padding := padding, gain := some Gain.sqrt2, sn := false,
               w := bw.c1.w, bias := bw.c1.b }
    conv2 := { in_channels := hidden, out_channels := out_channels, kernel_size := kernel_size,
               stride := stride, padding := padding, gain := some Gain.sqrt2, sn := false,
               w := bw.c2.w, bias := bw.c2.b }
    s_conv :=
      if in_channels ≠ out_channels ∨ optimized = true then
        some { in_channels := in_channels, out_channels := out_channels, kernel_size := 1,
               stride := 1, padding := 0, gain := some Gain.one, sn := false,
               w := bw.sc.w, bias := bw.sc.b }
      else none }

/-- Block.forward: conv1, ReLU, conv2; when optimized, average-pool both
the main path and the raw input; apply the skip convolution when present;
return the sum. -/
def Block.forward (b : Block) (input : Expr) : Expr :=
  let x_r := input
  let x := Expr.conv b.conv1 input
  let x := Expr.relu x
  let x := Expr.conv b.conv2 x
  let p := if b.optimized then (Expr.avg_pool2 x, Expr.avg_pool2 x_r) else (x, x_r)
  let x := p.1
  let x_r := p.2
  let x_r :=
    match b.s_conv with
    | some c => Expr.conv c x_r
    | none => x_r
  Expr.add x x_r

/-- Weights of a generator block: the three convolutions and the two
normalisation layers in both their plain and categorical forms. -/
structure GblockW where
  bw : BlockW
  b1 : BnW
  b2 : BnW
  cb1 : CbnW
  cb2 : CbnW

/-- The generator block Gblock of nets/resnet.py. -/
structure Gblock extends Block where
  upsample : Bool
  num_categories : Option Nat
  bn1 : NormL
  bn2 : NormL

/-- Gblock.batch_norm: a plain BatchNorm2d when num_categories is falsy,
else a CategoricalBatchNorm over num_categories classes. -/
def mkBatchNorm (num_categories : Option Nat) (num_features : Nat) (bw : BnW) (cw : CbnW) :
    NormL :=
  if truthy num_categories then NormL.categorical num_features (num_categories.getD 0) cw
  else NormL.plain num_features bw

/-- Gblock.__init__: the base Block is built without the optimized flag
(it defaults to False), bn1 is sized to in_channels and bn2 to
hidden_channels. -/
def Gblock.init (in_channels out_channels : Nat) (hidden_channels : Option Nat)
    (num_categories : Option Nat) (kernel_size stride padding : Nat) (upsample : Bool)
    (w : GblockW) : Gblock :=
  let base := Block.init in_channels out_channels hidden_channels kernel_size stride padding
    false w.bw
  { toBlock := base
    upsample := upsample
    num_categories := num_categories
    bn1 := mkBatchNorm num_categories base.in_channels w.b1 w.cb1
    bn2 := mkBatchNorm num_categories base.hidden_channels w.b2 w.cb2 }

/-- Gblock.forward: bn1 (with the label iff num_categories is truthy),
ReLU, optional x2 upsampling of both the main path and the raw input,
conv1, bn2 (same conditionality), ReLU, conv2, skip convolution on the
(possibly upsampled) raw input when present, sum. -/
def Gblock.forward (b : Gblock) (input : Expr) (y : Option Expr) : Expr :=
  let x := input
  let x_r := input
  let x := if truthy b.num_categories then normCall b.bn1 y x else Expr.norm b.bn1 x
  let x := Expr.relu x
  let p := if b.upsample then (Expr.upsample2 x, Expr.upsample2 x_r) else (x, x_r)
  let x := p.1
  let x_r := p.2
  let x := Expr.conv b.conv1 x
  let x := if truthy b.num_categories then normCall b.bn2 y x else Expr.norm b.bn2 x
  let x := Expr.relu x
  let x := Expr.conv b.conv2 x
  let x_r :=
    match b.s_conv with
    | some c => Expr.conv c x_r
    | none => x_r
  Expr.add x x_r

/-- The discriminator block Dblock of nets/resnet.py. -/
structure Dblock extends Block where
  downsample : Bool

/-- Dblock.__init__: the base Block is built without the optimized flag
(it defaults to False), then conv1, conv2 and the skip convolution (when
present) are wrapped in SpectralNorm. -/
def Dblock.init (in_channels out_channels : Nat) (hidden_channels : Option Nat)
    (kernel_size stride padding : Nat) (downsample : Bool) (w : BlockW) : Dblock :=
  let base := Block.init in_channels out_channels hidden_channels kernel_size stride padding
    false w
  { toBlock :=
      { base with
        conv1 := { base.conv1 with sn := true }
        conv2 := { base.conv2 with sn := true }
        s_conv := base.s_conv.map (fun c => { c with sn := true }) }
    downsample := downsample }

/-- Dblock.forward: the skip branch is the skip convolution (when
present) of the raw input; the main path is ReLU, conv1, ReLU, conv2;
when downsample is set both paths are average-pooled; return the sum. -/
def Dblock.forward (b : Dblock) (input : Expr) : Expr :=
  let x_r := input
  let x_r :=
    match b.s_conv with
    | some c => Expr.conv c x_r
    | none => x_r
  let x := Expr.relu input
  let x := Expr.conv b.conv1 x
  let x := Expr.relu x
  let x := Expr.conv b.conv2 x
  let p := if b.downsample then (Expr.avg_pool2 x, Expr.avg_pool2 x_r) else (x, x_r)
  Expr.add p.1 p.2

/-- The final output head built by ResnetGenerator.final_block:
BatchNorm2d(ch), ReLU, a 3x3 convolution to 3 channels initialised with
gain 1.0, Tanh. -/
structure FinalB where
  features : Nat
  bnw : BnW
  conv : Conv2d

/-- ResnetGenerator.final_block. -/
def final_block (ch : Nat) (bw : BnW) (cw : ConvW) : FinalB :=
  { features := ch
    bnw := bw
    conv := { in_channels := ch, out_channels := 3, kernel_size := 3, stride := 1, padding := 1,
              gain := some Gain.one, sn := false, w := cw.w, bias := cw.b } }

/-- Application of the final Sequential head to a tensor. -/
def finalApply (f : FinalB) (x : Expr) : Expr :=
  Expr.tanh (Expr.conv f.conv (Expr.relu (Expr.norm (NormL.plain f.features f.bnw) x)))

/-- The assembled generator: configuration, dense projection, block
pipeline and output head. -/
structure ResnetGenerator where
  ch : Nat
  z_dim : Nat
  n_categories : Option Nat
  bottom_width : Nat
  dense : LinearL
  blocks : List Gblock
  final : FinalB

/-- ResnetGenerator.forward: dense projection of the latent, reshape to
(N, -1, bottom_width, bottom_width), the generator blocks in order (each
receiving the label), then the final head. -/
def ResnetGenerator.forward (g : ResnetGenerator) (input : Expr) (y : Option Expr) : Expr :=
  let x := Expr.linear g.dense input
  let x := Expr.view4 g.bottom_width x
  let x := g.blocks.foldl (fun a b => Gblock.forward b a y) x
  finalApply g.final x

/-- Weights of the 128-resolution generator. -/
structure Gen128W where
  dense : LinW
  g1 : GblockW
  g2 : GblockW
  g3 : GblockW
  g4 : GblockW
  g5 : GblockW
  fb : BnW
  fc : ConvW

/-- ResnetGenerator128.__init__: dense z_dim -> bw*bw*ch*16 (gain 1.0),
five upsampling blocks halving the channel count from ch*16 down to ch,
and the final head. -/
def ResnetGenerator128.init (ch z_dim : Nat) (n_categories : Option Nat) (bottom_width : Nat)
    (w : Gen128W) : ResnetGenerator :=
  { ch := ch
    z_dim := z_dim
    n_categories := n_categories
    bottom_width := bottom_width
    dense := { in_features := z_dim, out_features := bottom_width * bottom_width * ch * 16,
               gain := some Gain.one, sn := false, w := w.dense.w, bias := w.dense.b }
    blocks := [
      Gblock.init (ch * 16) (ch * 16) none n_categories 3 1 1 true w.g1,
      Gblock.init (ch * 16) (ch * 8) none n_categories 3 1 1 true w.g2,
      Gblock.init (ch * 8) (ch * 4) none n_categories 3 1 1 true w.g3,
      Gblock.init (ch * 4) (ch * 2) none n_categories 3 1 1 true w.g4,
      Gblock.init (ch * 2) ch none n_categories 3 1 1 true w.g5]
    final := final_block ch w.fb w.fc }

/-- Weights of the 32-resolution generator. -/
structure Gen32W where
  dense : LinW
  g1 : GblockW
  g2 : GblockW
  g3 : GblockW
  fb : BnW
  fc : ConvW

/-- ResnetGenerator32.__init__: dense z_dim -> bw*bw*ch (gain 1.0), three
constant-width upsampling blocks, and the final head built by the base
constructor. -/
def ResnetGenerator32.init (ch z_dim : Nat) (n_categories : Option Nat) (bottom_width : Nat)
    (w : Gen32W) : ResnetGenerator :=
  { ch := ch
    z_dim := z_dim
    n_categories := n_categories
    bottom_width := bottom_width
    dense := { in_features := z_dim, out_features := bottom_width * bottom_width * ch,
               gain := some Gain.one, sn := false, w := w.dense.w, bias := w.dense.b }
    blocks := [
      Gblock.init ch ch none n_categories 3 1 1 true w.g1,
      Gblock.init ch ch none n_categories 3 1 1 true w.g2,
      Gblock.init ch ch none n_categories 3 1 1 true w.g3]
    final := final_block ch w.fb w.fc }

/-- Entry of the discriminator pipeline: the stem is a plain Block, the
remaining entries are Dblocks. -/
inductive DiscBlockE where
  | plainB (b : Block)
  | dB (b : Dblock)

/-- Forward of one discriminator pipeline entry. -/
def DiscBlockE.forward : DiscBlockE → Expr → Expr
  | DiscBlockE.plainB b, x => Block.forward b x
  | DiscBlockE.dB b, x => Dblock.forward b x

/-- Error raised by a discriminator forward pass: accessing the attribute
l_y on a model that never created it. -/
inductive DiscErr where
  | attributeError
deriving DecidableEq, Repr

/-- The assembled discriminator: pipeline, spectrally normalised scoring
layer l and, when n_categories > 0, the spectrally normalised class
embedding l_y. -/
structure ResnetDiscriminator where
  ch : Nat
  n_categories : Nat
  blocks : List DiscBlockE
  l : LinearL
  l_y : Option EmbL

/-- ResnetDiscriminator.forward: pipeline, ReLU, spatial sum over
dimensions (2,3), score l(x); when a label is given, add
sum(l_y(y) * x, dim=1, keepdim=True).  When the label is given but the
model has no l_y attribute, Python raises AttributeError. -/
def ResnetDiscriminator.forward (d : ResnetDiscriminator) (input : Expr) (y : Option Expr) :
    Except DiscErr Expr :=
  let x := d.blocks.foldl (fun a b => DiscBlockE.forward b a) input
  let x := Expr.relu x
  let x := Expr.sumSpatial x
  let output := Expr.linear d.l x
  match y with
  | none => Except.ok output
  | some lab =>
      match d.l_y with
      | none => Except.error DiscErr.attributeError
      | some emb =>
          let w_y := Expr.embed emb lab
          Except.ok (Expr.add output (Expr.sumDim1Keep (Expr.mul w_y x)))

/-- Weights of the 128-resolution discriminator. -/
structure Disc128W where
  stem : BlockW
  d1 : BlockW
  d2 : BlockW
  d3 : BlockW
  d4 : BlockW
  d5 : BlockW
  lw : LinW
  lyw : EmbW

/-- ResnetDiscriminator128.__init__: the stem is the plain optimized
Block(3, ch) built by the base constructor, followed by five downsampling
Dblocks up to ch*16; the scoring layer and (when n_categories > 0) the
class embedding are spectrally normalised and xavier-initialised with
gain 1.0. -/
def ResnetDiscriminator128.init (ch n_categories : Nat) (w : Disc128W) : ResnetDiscriminator :=
  { ch := ch
    n_categories := n_categories
    blocks := [
      DiscBlockE.plainB (Block.init 3 ch none 3 1 1 true w.stem),
      DiscBlockE.dB (Dblock.init ch (ch * 2) none 3 1 1 true w.d1),
      DiscBlockE.dB (Dblock.init (ch * 2) (ch * 4) none 3 1 1 true w.d2),
      DiscBlockE.dB (Dblock.init (ch * 4) (ch * 8) none 3 1 1 true w.d3),
      DiscBlockE.dB (Dblock.init (ch * 8) (ch * 16) none 3 1 1 true w.d4),
      DiscBlockE.dB (Dblock.init (ch * 16) (ch * 16) none 3 1 1 true w.d5)]
    l := { in_features := ch * 16, out_features := 1, gain := some Gain.one, sn := true,
           w := w.lw.w, bias := w.lw.b }
    l_y :=
      if 0 < n_categories then
        some { num_embeddings := n_categories, embedding_dim := ch * 16, gain := some Gain.one,
               sn := true, w := w.lyw.w }
      else none }

/-- Weights of the 32-resolution discriminator. -/
structure Disc32W where
  stem : BlockW
  d1 : BlockW
  d2 : BlockW
  d3 : BlockW
  lw : LinW
  lyw : EmbW

/-- ResnetDiscriminator32.__init__: the stem is the plain optimized
Block(3, ch) built by the base constructor, followed by three
constant-width downsampling Dblocks; the scoring layer and (when
n_categories > 0) the class embedding are spectrally normalised but NOT
xavier-initialised (no init call appears for them in the source). -/
def ResnetDiscriminator32.init (ch n_categories : Nat) (w : Disc32W) : ResnetDiscriminator :=
  { ch := ch
    n_categories := n_categories
    blocks := [
      DiscBlockE.plainB (Block.init 3 ch none 3 1 1 true w.stem),
      DiscBlockE.dB (Dblock.init ch ch none 3 1 1 true w.d1),
      DiscBlockE.dB (Dblock.init ch ch none 3 1 1 true w.d2),
      DiscBlockE.dB (Dblock.init ch ch none 3 1 1 true w.d3)]
    l := { in_features := ch, out_features := 1, gain := none, sn := true,
           w := w.lw.w, bias := w.lw.b }
    l_y :=
      if 0 < n_categories then
        some { num_embeddings := n_categories, embedding_dim := ch, gain := none, sn := true,
               w := w.lyw.w }
      else none }

/-- Main branch of the generator block as the claim words it: normalize
with bn1 (label only when num_categories is set), ReLU, x2 resize when
upsample, conv1, bn2 with the same conditionality, ReLU, conv2. -/
def gblockSpecMain (b : Gblock) (input : Expr) (y : Option Expr) : Expr :=
  let n1 := if truthy b.num_categories then normCall b.bn1 y input else Expr.norm b.bn1 input
  let a1 := Expr.relu n1
  let u := if b.upsample then Expr.upsample2 a1 else a1
  let c1 := Expr.conv b.conv1 u
  let n2 := if truthy b.num_categories then normCall b.bn2 y c1 else Expr.norm b.bn2 c1
  Expr.conv b.conv2 (Expr.relu n2)

/-- Skip branch of the generator block as the claim words it: the raw
pre-normalization input, resized by x2 exactly when the main branch is,
with the skip convolution applied when it exists. -/
def gblockSpecSkip (b : Gblock) (input : Expr) : Expr :=
  let s0 := if b.upsample then Expr.upsample2 input else input
  match b.s_conv with
  | some c => Expr.conv c s0
  | none => s0

/-- The generator block forward as the claim describes it: elementwise
sum of the main and skip branches. -/
def gblockSpec (b : Gblock) (input : Expr) (y : Option Expr) : Expr :=
  Expr.add (gblockSpecMain b input y) (gblockSpecSkip b input)

/-- Main path of the discriminator block as the claim words it: ReLU,
conv1, ReLU, conv2. -/
def dblockSpecMain (b : Dblock) (input : Expr) : Expr :=
  Expr.conv b.conv2 (Expr.relu (Expr.conv b.conv1 (Expr.relu input)))

/-- Skip branch of the discriminator block as the claim words it: the
skip convolution (when present) applied to the raw, un-activated input. -/
def dblockSpecSkip (b : Dblock) (input : Expr) : Expr :=
  match b.s_conv with
  | some c => Expr.conv c input
  | none => input

/-- The discriminator block forward as the claim describes it: both
branches average-pooled after the convolutions when downsample is set,
then summed. -/
def dblockSpec (b : Dblock) (input : Expr) : Expr :=
  let m := dblockSpecMain b input
  let s := dblockSpecSkip b input
  if b.downsample then Expr.add (Expr.avg_pool2 m) (Expr.avg_pool2 s) else Expr.add m s

/-- The discriminator forward as the claim words it: block pipeline,
activation, sum-pool over both spatial dimensions, spectrally normalised
linear scoring layer. -/
def discSpecBase (d : ResnetDiscriminator) (input : Expr) : Expr :=
  Expr.linear d.l
    (Expr.sumSpatial (Expr.relu (d.blocks.foldl (fun a b => DiscBlockE.forward b a) input)))

/-- The conditional score as the claim words it: the per-class embedding
vector multiplied elementwise by the pooled features, summed over the
feature dimension, added to the base score.  The pooled feature vector is
the argument of the scoring layer in discSpecBase. -/
def discSpecCond (d : ResnetDiscriminator) (emb : EmbL) (input : Expr) (lab : Expr) : Expr :=
  let pooled :=
    Expr.sumSpatial (Expr.relu (d.blocks.foldl (fun a b => DiscBlockE.forward b a) input))
  Expr.add (Expr.linear d.l pooled) (Expr.sumDim1Keep (Expr.mul (Expr.embed emb lab) pooled))

/-- Whether any batch/class normalisation node occurs in a computation. -/
def hasNormNode : Expr → Bool
  | Expr.input => false
  | Expr.labelInput => false
  | Expr.conv _ e => hasNormNode e
  | Expr.norm _ _ => true
  | Expr.normLS _ _ _ => true
  | Expr.normLN _ _ => true
  | Expr.relu e => hasNormNode e
  | Expr.tanh e => hasNormNode e
  | Expr.upsample2 e => hasNormNode e
  | Expr.avg_pool2 e => hasNormNode e
  | Expr.add a b => hasNormNode a || hasNormNode b
  | Expr.mul a b => hasNormNode a || hasNormNode b
  | Expr.linear _ e => hasNormNode e
  | Expr.embed _ e => hasNormNode e
  | Expr.sumSpatial e => hasNormNode e
  | Expr.sumDim1Keep e => hasNormNode e
  | Expr.view4 _ e => hasNormNode e

/-- Whether all convolutions of a pipeline entry are wrapped in
SpectralNorm. -/
def DiscBlockE.allSN : DiscBlockE → Bool
  | DiscBlockE.plainB b =>
      b.conv1.sn && b.conv2.sn &&
        (match b.s_conv with
         | some c => c.sn
         | none => true)
  | DiscBlockE.dB b =>
      b.conv1.sn && b.conv2.sn &&
        (match b.s_conv with
         | some c => c.sn
         | none => true)

/-- Whether a pipeline entry is a Dblock (a DiscriminatorBlock). -/
def DiscBlockE.isDb : DiscBlockE → Bool
  | DiscBlockE.plainB _ => false
  | DiscBlockE.dB _ => true

/-- SpectralNorm flag of conv1 of the first pipeline entry. -/
def stemConv1SN (d : ResnetDiscriminator) : Option Bool :=
  d.blocks.head?.map
    (fun e =>
      match e with
      | DiscBlockE.plainB b => b.conv1.sn
      | DiscBlockE.dB b => b.conv1.sn)

/-- Zero-valued convolution weights, for concrete instantiations. -/
def convW0 : ConvW := { w := fun _ _ _ _ => 0, b := fun _ => 0 }

/-- Zero-valued batch-norm parameters, for concrete instantiations. -/
def bnW0 : BnW := { gamma := fun _ => 0, beta := fun _ => 0, eps := 0 }

/-- Zero-valued categorical batch-norm parameters. -/
def cbnW0 : CbnW := { gamma := fun _ _ => 0, beta := fun _ _ => 0, eps := 0 }

/-- Zero-valued linear weights. -/
def linW0 : LinW := { w := fun _ _ => 0, b := fun _ => 0 }

/-- Zero-valued embedding weights. -/
def embW0 : EmbW := { w := fun _ _ => 0 }

/-- Zero-valued residual-block weights. -/
def blockW0 : BlockW := { c1 := convW0, c2 := convW0, sc := convW0 }

/-- Zero-valued generator-block weights. -/
def gblockW0 : GblockW := { bw := blockW0, b1 := bnW0, b2 := bnW0, cb1 := cbnW0, cb2 := cbnW0 }

/-- Zero-valued weights of the 128-resolution generator. -/
def gen128W0 : Gen128W :=
  { dense := linW0, g1 := gblockW0, g2 := gblockW0, g3 := gblockW0, g4 := gblockW0,
    g5 := gblockW0, fb := bnW0, fc := convW0 }

/-- Zero-valued weights of the 32-resolution generator. -/
def gen32W0 : Gen32W :=
  { dense := linW0, g1 := gblockW0, g2 := gblockW0, g3 := gblockW0, fb := bnW0, fc := convW0 }

/-- Zero-valued weights of the 128-resolution discriminator. -/
def disc128W0 : Disc128W :=
  { stem := blockW0, d1 := blockW0, d2 := blockW0, d3 := blockW0, d4 := blockW0, d5 := blockW0,
    lw := linW0, lyw := embW0 }

/-- Zero-valued weights of the 32-resolution discriminator. -/
def disc32W0 : Disc32W :=
  { stem := blockW0, d1 := blockW0, d2 := blockW0, d3 := blockW0, lw := linW0, lyw := embW0 }

lemma gblock_forward_eq_spec (b : Gblock) (x : Expr) (y : Option Expr) :
    Gblock.forward b x y = gblockSpec b x y := by
  unfold Gblock.forward gblockSpec gblockSpecMain gblockSpecSkip
  cases hu : b.upsample <;> cases hs : b.s_conv <;> simp [hu, hs]

lemma dblock_forward_eq_spec (b : Dblock) (x : Expr) :
    Dblock.forward b x = dblockSpec b x := by
  unfold Dblock.forward dblockSpec dblockSpecMain dblockSpecSkip
  cases hd : b.downsample <;> cases hs : b.s_conv <;> simp [hd, hs]

/-- C1: for every Block (and every subclass constructed through
Block.__init__) with parameters in_channels, out_channels and flag
optimized, the 1x1 skip convolution s_conv is instantiated iff
in_channels differs from out_channels or optimized is true (subclasses
never forward the optimized flag, so for them the condition is just the
channel inequality); when it exists, its output channel count equals
out_channels. -/
theorem C1_skip_conv_iff (i o : Nat) (hc : Option Nat) (k s p : Nat) (opt : Bool)
    (ncat : Option Nat) (up dn : Bool) (bw : BlockW) (gw : GblockW) :
    ((Block.init i o hc k s p opt bw).s_conv.isSome = (decide (i ≠ o) || opt)) ∧
    ((Block.init i o hc k s p opt bw).s_conv.map Conv2d.out_channels =
      if i ≠ o ∨ opt = true then some o else none) ∧
    ((Gblock.init i o hc ncat k s p up gw).s_conv.isSome = decide (i ≠ o)) ∧
    ((Gblock.init i o hc ncat k s p up gw).s_conv.map Conv2d.out_channels =
      if i ≠ o then some o else none) ∧
    ((Dblock.init i o hc k s p dn bw).s_conv.isSome = decide (i ≠ o)) ∧
    ((Dblock.init i o hc k s p dn bw).s_conv.map Conv2d.out_channels =
      if i ≠ o then some o else none) := by
  refine ⟨?_, ?_, ?_, ?_, ?_, ?_⟩ <;>
    by_cases h : i = o <;> cases opt <;>
      simp [Block.init, Gblock.init, Dblock.init, h]

/-- C6: in every Block construction the two main convolutions are
xavier-initialised with gain sqrt(2) while the 1x1 skip convolution, when
instantiated, is initialised with gain 1.0; the generator and
discriminator subclasses inherit this (SpectralNorm wrapping does not
change the recorded initialisation). -/
theorem C6_init_gains (i o : Nat) (hc : Option Nat) (k s p : Nat) (opt : Bool)
    (ncat : Option Nat) (up dn : Bool) (bw : BlockW) (gw : GblockW) :
    ((Block.init i o hc k s p opt bw).conv1.gain = some Gain.sqrt2) ∧
    ((Block.init i o hc k s p opt bw).conv2.gain = some Gain.sqrt2) ∧
    ((Block.init i o hc k s p opt bw).s_conv.map Conv2d.gain =
      if i ≠ o ∨ opt = true then some (some Gain.one) else none) ∧
    ((Gblock.init i o hc ncat k s p up gw).conv1.gain = some Gain.sqrt2) ∧
    ((Gblock.init i o hc ncat k s p up gw).conv2.gain = some Gain.sqrt2) ∧
    ((Gblock.init i o hc ncat k s p up gw).s_conv.map Conv2d.gain =
      if i ≠ o then some (some Gain.one) else none) ∧
    ((Dblock.init i o hc k s p dn bw).conv1.gain = some Gain.sqrt2) ∧
    ((Dblock.init i o hc k s p dn bw).conv2.gain = some Gain.sqrt2) ∧
    ((Dblock.init i o hc k s p dn bw).s_conv.map Conv2d.gain =
      if i ≠ o then some (some Gain.one) else none) := by
  refine ⟨?_, ?_, ?_, ?_, ?_, ?_, ?_, ?_, ?_⟩ <;>
    by_cases h : i = o <;> cases opt <;>
      simp [Block.init, Gblock.init, Dblock.init, h]

/-- C2 counterexample: in ResnetDiscriminator128(ch=64), the stem (first
pipeline entry) is not a DiscriminatorBlock and its conv1 is not wrapped
in spectral normalization, contradicting the claim. -/
theorem C2_counterexample :
    stemConv1SN (ResnetDiscriminator128.init 64 0 disc128W0) = some false ∧
    (ResnetDiscriminator128.init 64 0 disc128W0).blocks.map DiscBlockE.isDb =
      [false, true, true, true, true, true] := by
  constructor <;> rfl

lemma dblock_allSN (i o : Nat) (hc : Option Nat) (k s p : Nat) (dn : Bool) (w : BlockW) :
    DiscBlockE.allSN (DiscBlockE.dB (Dblock.init i o hc k s p dn w)) = true := by
  by_cases h : i = o <;> simp [DiscBlockE.allSN, Dblock.init, Block.init, h]

lemma stem_allSN (ch : Nat) (w : BlockW) :
    DiscBlockE.allSN (DiscBlockE.plainB (Block.init 3 ch none 3 1 1 true w)) = false := by
  simp [DiscBlockE.allSN, Block.init]

/-- C2 amended: the discriminator's stem block is a plain Block (with
in_channels=3 and optimized=True), so its convolutions are NOT wrapped in
spectral normalization; every subsequent pipeline entry is a
DiscriminatorBlock whose convolutions are all spectrally normalised. -/
theorem C2_stem_not_sn (ch ncat ch2 ncat2 : Nat) (w : Disc128W) (w2 : Disc32W) :
    ((ResnetDiscriminator128.init ch ncat w).blocks.head? =
      some (DiscBlockE.plainB (Block.init 3 ch none 3 1 1 true w.stem))) ∧
    ((ResnetDiscriminator128.init ch ncat w).blocks.map DiscBlockE.isDb =
      [false, true, true, true, true, true]) ∧
    ((ResnetDiscriminator128.init ch ncat w).blocks.map DiscBlockE.allSN =
      [false, true, true, true, true, true]) ∧
    (stemConv1SN (ResnetDiscriminator128.init ch ncat w) = some false) ∧
    ((ResnetDiscriminator32.init ch2 ncat2 w2).blocks.head? =
      some (DiscBlockE.plainB (Block.init 3 ch2 none 3 1 1 true w2.stem))) ∧
    ((ResnetDiscriminator32.init ch2 ncat2 w2).blocks.map DiscBlockE.isDb =
      [false, true, true, true]) ∧
    ((ResnetDiscriminator32.init ch2 ncat2 w2).blocks.map DiscBlockE.allSN =
      [false, true, true, true]) ∧
    (stemConv1SN (ResnetDiscriminator32.init ch2 ncat2 w2) = some false) := by
  refine ⟨rfl, rfl, ?_, rfl, rfl, rfl, ?_, rfl⟩ <;>
    simp only [ResnetDiscriminator128.init, ResnetDiscriminator32.init, List.map,
      dblock_allSN, stem_allSN]

/-- C3: Gblock.forward is exactly the composition bn1 (label only when
conditional), ReLU, optional x2 resize of both the main branch and the
raw pre-normalization input, conv1, bn2 (same conditionality), ReLU,
conv2, skip convolution on the (possibly resized) skip branch when it
exists, elementwise sum; in particular the skip branch receives exactly
the same spatial resize as the main branch. -/
theorem C3_gblock_forward (b : Gblock) (x : Expr) (y : Option Expr) :
    Gblock.forward b x y = gblockSpec b x y :=
  gblock_forward_eq_spec b x y

/-- C4: Dblock.forward computes the skip branch by applying the skip
convolution (when present) to the raw un-activated input, the main path
as ReLU, conv1, ReLU, conv2, average-pools both branches by 2 when
downsample is set, returns the sum, and contains no batch/class
normalisation node beyond whatever the incoming tensor expression already
contains. -/
theorem C4_dblock_forward (b : Dblock) (x : Expr) :
    Dblock.forward b x = dblockSpec b x ∧
    hasNormNode (Dblock.forward b x) = hasNormNode x := by
  refine ⟨dblock_forward_eq_spec b x, ?_⟩
  unfold Dblock.forward
  cases hd : b.downsample <;> cases hs : b.s_conv <;>
    simp [hd, hs, hasNormNode]

/-- C8 counterexample: a generator block built without conditioning and
called with a non-null label computes exactly what it computes without
the label: the label is silently ignored, no failure is raised,
contradicting the claimed explicit-failure policy for generator blocks. -/
theorem C8_counterexample :
    Gblock.forward (Gblock.init 4 4 none none 3 1 1 true gblockW0) Expr.input
        (some Expr.labelInput) =
      Gblock.forward (Gblock.init 4 4 none none 3 1 1 true gblockW0) Expr.input none := rfl

/-- C8 amended: an unconditional discriminator called with a non-null
label fails explicitly (Python raises AttributeError because l_y was
never created), but the generator's blocks silently ignore a label passed
to an unconditional block (num_categories None or 0). -/
theorem C8_error_policy (ch ch2 : Nat) (w : Disc32W) (w128 : Disc128W) (x lab : Expr)
    (i o : Nat) (hc : Option Nat) (k s p : Nat) (up : Bool) (gw : GblockW) (y : Option Expr) :
    ((ResnetDiscriminator32.init ch 0 w).forward x (some lab) =
      Except.error DiscErr.attributeError) ∧
    ((ResnetDiscriminator128.init ch2 0 w128).forward x (some lab) =
      Except.error DiscErr.attributeError) ∧
    (Gblock.forward (Gblock.init i o hc none k s p up gw) x y =
      Gblock.forward (Gblock.init i o hc none k s p up gw) x none) ∧
    (Gblock.forward (Gblock.init i o hc (some 0) k s p up gw) x y =
      Gblock.forward (Gblock.init i o hc (some 0) k s p up gw) x none) := by
  refine ⟨?_, ?_, ?_, ?_⟩
  · simp [ResnetDiscriminator32.init, ResnetDiscriminator.forward]
  · simp [ResnetDiscriminator128.init, ResnetDiscriminator.forward]
  · simp [Gblock.forward, Gblock.init, truthy]
  · simp [Gblock.forward, Gblock.init, truthy]

/-- C9 counterexample: in ResnetDiscriminator32(ch=128, n_categories=3),
neither the scoring linear layer nor the class embedding records any
xavier initialisation, contradicting the claim that every model variant
initialises them like ResnetDiscriminator128 does. -/
theorem C9_counterexample :
    (ResnetDiscriminator32.init 128 3 disc32W0).l.gain = none ∧
    (ResnetDiscriminator32.init 128 3 disc32W0).l_y.map EmbL.gain = some none := by
  constructor <;> rfl

/-- C9 amended: the block convolutions of every variant are built with
the gain-keyed xavier rule, and so are the scoring layer and class
embedding of ResnetDiscriminator128 (gain 1.0), but the scoring linear
layer and class embedding of ResnetDiscriminator32 are left at the
framework default initialisation. -/
theorem C9_head_init (ch ncat ch2 ncat2 : Nat) (w : Disc128W) (w2 : Disc32W) :
    ((ResnetDiscriminator128.init ch ncat w).l.gain = some Gain.one) ∧
    ((ResnetDiscriminator128.init ch ncat w).l_y.map EmbL.gain =
      if 0 < ncat then some (some Gain.one) else none) ∧
    ((ResnetDiscriminator32.init ch2 ncat2 w2).l.gain = none) ∧
    ((ResnetDiscriminator32.init ch2 ncat2 w2).l_y.map EmbL.gain =
      if 0 < ncat2 then some none else none) := by
  refine ⟨rfl, ?_, rfl, ?_⟩ <;>
    by_cases h : 0 < ncat <;> by_cases h2 : 0 < ncat2 <;>
      simp [ResnetDiscriminator128.init, ResnetDiscriminator32.init, h, h2]

/-- C10: the upsample flag has no effect on skip-convolution existence:
Gblock never forwards the optimized flag, so its skip convolution exists
iff in_channels differs from out_channels; each of ResnetGenerator32's
three blocks has an identity skip path (no skip convolution) with
upsample set, and its forward still upsamples the skip branch by 2 before
the sum. -/
theorem C10_identity_skip (i o : Nat) (hc : Option Nat) (ncat ncat2 : Option Nat)
    (k s p : Nat) (up : Bool) (gw : GblockW) (ch z : Nat) (w : Gen32W) (x : Expr)
    (y : Option Expr) :
    ((Gblock.init i o hc ncat k s p up gw).optimized = false) ∧
    ((Gblock.init i o hc ncat k s p up gw).s_conv.isSome = decide (i ≠ o)) ∧
    ((ResnetGenerator32.init ch z ncat2 4 w).blocks.map (fun b => b.s_conv) =
      [none, none, none]) ∧
    ((ResnetGenerator32.init ch z ncat2 4 w).blocks.map (fun b => b.upsample) =
      [true, true, true]) ∧
    ((ResnetGenerator32.init ch z ncat2 4 w).blocks.map (fun b => Gblock.forward b x y) =
      (ResnetGenerator32.init ch z ncat2 4 w).blocks.map
        (fun b => Expr.add (gblockSpecMain b x y) (Expr.upsample2 x))) := by
  refine ⟨?_, ?_, ?_, ?_, ?_⟩
  · simp [Gblock.init, Block.init]
  · by_cases h : i = o <;> simp [Gblock.init, Block.init, h]
  · simp [ResnetGenerator32.init, Gblock.init, Block.init]
  · simp [ResnetGenerator32.init, Gblock.init]
  · simp only [ResnetGenerator32.init, List.map, gblock_forward_eq_spec, gblockSpec,
      gblockSpecSkip, Gblock.init, Block.init]
    simp

lemma convOutDim_k3 (h : Nat) (hh : 1 ≤ h) : convOutDim h 3 1 1 = some h := by
  unfold convOutDim
  rw [if_pos (by omega)]
  congr 1
  omega

lemma convOutDim_k1 (h : Nat) (hh : 1 ≤ h) : convOutDim h 1 1 0 = some h := by
  unfold convOutDim
  rw [if_pos (by omega)]
  congr 1
  omega

lemma tanh_bounds (x : ℝ) : -1 ≤ Real.tanh x ∧ Real.tanh x ≤ 1 := by
  have hc := Real.cosh_pos x
  have h1 := Real.sinh_lt_cosh x
  have h2 := Real.sinh_lt_cosh (-x)
  rw [Real.sinh_neg, Real.cosh_neg] at h2
  rw [Real.tanh_eq_sinh_div_cosh]
  constructor
  · rw [le_div_iff₀ hc]
    linarith
  · rw [div_le_one hc]
    linarith

lemma evalE_tanh (inS lblS : List Nat) (inD lblD : List Nat → ℝ) (e : Expr) :
    evalE inS lblS inD lblD (Expr.tanh e) =
      fun idx => Real.tanh (evalE inS lblS inD lblD e idx) := rfl

lemma evalE_tanh_bounds (inS lblS : List Nat) (inD lblD : List Nat → ℝ) (e : Expr)
    (idx : List Nat) :
    -1 ≤ evalE inS lblS inD lblD (Expr.tanh e) idx ∧
      evalE inS lblS inD lblD (Expr.tanh e) idx ≤ 1 := by
  rw [evalE_tanh]
  exact tanh_bounds (evalE inS lblS inD lblD e idx)

set_option maxHeartbeats 1600000 in
lemma gblock_shape {inS lblS : List Nat} {i o n h w : Nat} {ncat : Option Nat} {gw : GblockW}
    {x : Expr} {y : Option Expr}
    (hx : shapeOf inS lblS x = some [n, i, h, w]) (hh : 1 ≤ h) (hw : 1 ≤ w)
    (hy : truthy ncat = true → ∃ lab, y = some lab ∧ shapeOf inS lblS lab = some [n]) :
    shapeOf inS lblS (Gblock.forward (Gblock.init i o none ncat 3 1 1 true gw) x y) =
      some [n, o, 2 * h, 2 * w] := by
  have h2h : convOutDim (2 * h) 3 1 1 = some (2 * h) := convOutDim_k3 _ (by omega)
  have h2w : convOutDim (2 * w) 3 1 1 = some (2 * w) := convOutDim_k3 _ (by omega)
  have h2h1 : convOutDim (2 * h) 1 1 0 = some (2 * h) := convOutDim_k1 _ (by omega)
  have h2w1 : convOutDim (2 * w) 1 1 0 = some (2 * w) := convOutDim_k1 _ (by omega)
  cases htr : truthy ncat with
  | false =>
      by_cases hio : i = o
      · subst hio
        simp [Gblock.forward, Gblock.init, Block.init, mkBatchNorm, htr, normCall,
          shapeOf, hx, h2h, h2w, h2h1, h2w1, hh, hw]
      · simp [Gblock.forward, Gblock.init, Block.init, mkBatchNorm, htr, normCall,
          shapeOf, hx, h2h, h2w, h2h1, h2w1, hh, hw, hio]
  | true =>
      obtain ⟨lab, rfl, hlab⟩ := hy htr
      by_cases hio : i = o
      · subst hio
        simp [Gblock.forward, Gblock.init, Block.init, mkBatchNorm, htr, normCall,
          shapeOf, hx, hlab, h2h, h2w, h2h1, h2w1, hh, hw]
      · simp [Gblock.forward, Gblock.init, Block.init, mkBatchNorm, htr, normCall,
          shapeOf, hx, hlab, h2h, h2w, h2h1, h2w1, hh, hw, hio]

lemma dblock_shape {inS lblS : List Nat} {i o n h w : Nat} {bw : BlockW} {x : Expr}
    (hx : shapeOf inS lblS x = some [n, i, h, w]) (hh : 2 ≤ h) (hw : 2 ≤ w) :
    shapeOf inS lblS (Dblock.forward (Dblock.init i o none 3 1 1 true bw) x) =
      some [n, o, h / 2, w / 2] := by
  have h3 : convOutDim h 3 1 1 = some h := convOutDim_k3 _ (by omega)
  have w3 : convOutDim w 3 1 1 = some w := convOutDim_k3 _ (by omega)
  have h1 : convOutDim h 1 1 0 = some h := convOutDim_k1 _ (by omega)
  have w1 : convOutDim w 1 1 0 = some w := convOutDim_k1 _ (by omega)
  by_cases hio : i = o
  · subst hio
    simp [Dblock.forward, Dblock.init, Block.init, shapeOf, hx, h3, w3, h1, w1, hh, hw]
  · simp [Dblock.forward, Dblock.init, Block.init, shapeOf, hx, h3, w3, h1, w1, hh, hw, hio]

lemma stem_shape {inS lblS : List Nat} {ch n h w : Nat} {bw : BlockW} {x : Expr}
    (hx : shapeOf inS lblS x = some [n, 3, h, w]) (hh : 2 ≤ h) (hw : 2 ≤ w) :
    shapeOf inS lblS (Block.forward (Block.init 3 ch none 3 1 1 true bw) x) =
      some [n, ch, h / 2, w / 2] := by
  have h3 : convOutDim h 3 1 1 = some h := convOutDim_k3 _ (by omega)
  have w3 : convOutDim w 3 1 1 = some w := convOutDim_k3 _ (by omega)
  have h1 : convOutDim (h / 2) 1 1 0 = some (h / 2) := convOutDim_k1 _ (by omega)
  have w1 : convOutDim (w / 2) 1 1 0 = some (w / 2) := convOutDim_k1 _ (by omega)
  simp [Block.forward, Block.init, shapeOf, hx, h3, w3, h1, w1, hh, hw]

lemma shapeOf_norm_plain {inS lblS : List Nat} {f : Nat} {bw : BnW} {e : Expr} {n h w : Nat}
    (hx : shapeOf inS lblS e = some [n, f, h, w]) :
    shapeOf inS lblS (Expr.norm (NormL.plain f bw) e) = some [n, f, h, w] := by
  simp [shapeOf, hx]

lemma shapeOf_conv_eq {inS lblS : List Nat} {c : Conv2d} {e : Expr} {n h w h2 w2 : Nat}
    (hx : shapeOf inS lblS e = some [n, c.in_channels, h, w])
    (hh2 : convOutDim h c.kernel_size c.stride c.padding = some h2)
    (hw2 : convOutDim w c.kernel_size c.stride c.padding = some w2) :
    shapeOf inS lblS (Expr.conv c e) = some [n, c.out_channels, h2, w2] := by
  simp [shapeOf, hx, hh2, hw2]

lemma shapeOf_linear2 {inS lblS : List Nat} {l : LinearL} {e : Expr} {n : Nat}
    (hx : shapeOf inS lblS e = some [n, l.in_features]) :
    shapeOf inS lblS (Expr.linear l e) = some [n, l.out_features] := by
  simp [shapeOf, hx]

lemma shapeOf_view4_eq {inS lblS : List Nat} {bw : Nat} {e : Expr} {n f c : Nat}
    (hx : shapeOf inS lblS e = some [n, f]) (hdvd : bw * bw ∣ f) (hq : f / (bw * bw) = c) :
    shapeOf inS lblS (Expr.view4 bw e) = some [n, c, bw, bw] := by
  subst hq
  simp [shapeOf, hx, hdvd]

lemma shapeOf_add_eq {inS lblS : List Nat} {a b : Expr} {s : List Nat}
    (ha : shapeOf inS lblS a = some s) (hb : shapeOf inS lblS b = some s) :
    shapeOf inS lblS (Expr.add a b) = some s := by
  simp [shapeOf, ha, hb]

lemma shapeOf_mul_eq {inS lblS : List Nat} {a b : Expr} {s : List Nat}
    (ha : shapeOf inS lblS a = some s) (hb : shapeOf inS lblS b = some s) :
    shapeOf inS lblS (Expr.mul a b) = some s := by
  simp [shapeOf, ha, hb]

lemma shapeOf_embed1 {inS lblS : List Nat} {l : EmbL} {lab : Expr} {n : Nat}
    (hlab : shapeOf inS lblS lab = some [n]) :
    shapeOf inS lblS (Expr.embed l lab) = some [n, l.embedding_dim] := by
  simp [shapeOf, hlab]

lemma shapeOf_sumSpatial_eq {inS lblS : List Nat} {e : Expr} {n c h w : Nat}
    (hx : shapeOf inS lblS e = some [n, c, h, w]) :
    shapeOf inS lblS (Expr.sumSpatial e) = some [n, c] := by
  simp [shapeOf, hx]

lemma shapeOf_sumDim1_eq {inS lblS : List Nat} {e : Expr} {n f : Nat}
    (hx : shapeOf inS lblS e = some [n, f]) :
    shapeOf inS lblS (Expr.sumDim1Keep e) = some [n, 1] := by
  simp [shapeOf, hx]

/-- C5: for every configuration (ch, z_dim, n_categories) with
bottom_width=4 and every batch of N latent vectors of shape (N, z_dim)
(with a batch-sized label supplied whenever the model is conditional),
ResnetGenerator128.forward yields shape (N, 3, 128, 128) through its five
upsampling blocks and ResnetGenerator32.forward yields (N, 3, 32, 32)
through its three, and in both cases every element of the output lies in
[-1, 1] because the final head ends in Tanh. -/
theorem C5_generator_output (ch z N : Nat) (ncat : Option Nat) (y : Option Expr)
    (w : Gen128W) (w32 : Gen32W) (inD lblD : List Nat → ℝ) (idx idx2 : List Nat)
    (hy : truthy ncat = true → ∃ lab, y = some lab ∧ shapeOf [N, z] [N] lab = some [N]) :
    (shapeOf [N, z] [N] ((ResnetGenerator128.init ch z ncat 4 w).forward Expr.input y) =
      some [N, 3, 128, 128]) ∧
    (-1 ≤ evalE [N, z] [N] inD lblD
        ((ResnetGenerator128.init ch z ncat 4 w).forward Expr.input y) idx ∧
      evalE [N, z] [N] inD lblD
        ((ResnetGenerator128.init ch z ncat 4 w).forward Expr.input y) idx ≤ 1) ∧
    (shapeOf [N, z] [N] ((ResnetGenerator32.init ch z ncat 4 w32).forward Expr.input y) =
      some [N, 3, 32, 32]) ∧
    (-1 ≤ evalE [N, z] [N] inD lblD
        ((ResnetGenerator32.init ch z ncat 4 w32).forward Expr.input y) idx2 ∧
      evalE [N, z] [N] inD lblD
        ((ResnetGenerator32.init ch z ncat 4 w32).forward Expr.input y) idx2 ≤ 1) := by
  refine ⟨?_, ?_, ?_, ?_⟩
  · let g := ResnetGenerator128.init ch z ncat 4 w
    let X0 : Expr := Expr.view4 4 (Expr.linear g.dense Expr.input)
    let X1 : Expr := Gblock.forward (Gblock.init (ch * 16) (ch * 16) none ncat 3 1 1 true w.g1)
      X0 y
    let X2 : Expr := Gblock.forward (Gblock.init (ch * 16) (ch * 8) none ncat 3 1 1 true w.g2)
      X1 y
    let X3 : Expr := Gblock.forward (Gblock.init (ch * 8) (ch * 4) none ncat 3 1 1 true w.g3)
      X2 y
    let X4 : Expr := Gblock.forward (Gblock.init (ch * 4) (ch * 2) none ncat 3 1 1 true w.g4)
      X3 y
    let X5 : Expr := Gblock.forward (Gblock.init (ch * 2) ch none ncat 3 1 1 true w.g5) X4 y
    have hlin : shapeOf [N, z] [N] (Expr.linear g.dense Expr.input) =
        some [N, 4 * 4 * ch * 16] := shapeOf_linear2 rfl
    have h0 : shapeOf [N, z] [N] X0 = some [N, ch * 16, 4, 4] :=
      shapeOf_view4_eq hlin (by omega) (by omega)
    have h1 : shapeOf [N, z] [N] X1 = some [N, ch * 16, 8, 8] :=
      gblock_shape h0 (by norm_num) (by norm_num) hy
    have h2 : shapeOf [N, z] [N] X2 = some [N, ch * 8, 16, 16] :=
      gblock_shape h1 (by norm_num) (by norm_num) hy
    have h3 : shapeOf [N, z] [N] X3 = some [N, ch * 4, 32, 32] :=
      gblock_shape h2 (by norm_num) (by norm_num) hy
    have h4 : shapeOf [N, z] [N] X4 = some [N, ch * 2, 64, 64] :=
      gblock_shape h3 (by norm_num) (by norm_num) hy
    have h5 : shapeOf [N, z] [N] X5 = some [N, ch, 128, 128] :=
      gblock_shape h4 (by norm_num) (by norm_num) hy
    have h6 : shapeOf [N, z] [N] (Expr.norm (NormL.plain ch w.fb) X5) =
        some [N, ch, 128, 128] := shapeOf_norm_plain h5
    have h7 : shapeOf [N, z] [N]
        (Expr.conv g.final.conv (Expr.relu (Expr.norm (NormL.plain ch w.fb) X5))) =
        some [N, 3, 128, 128] :=
      shapeOf_conv_eq h6 (convOutDim_k3 128 (by norm_num)) (convOutDim_k3 128 (by norm_num))
    exact h7
  · let g := ResnetGenerator128.init ch z ncat 4 w
    let X5 : Expr := (g.blocks.foldl (fun a b => Gblock.forward b a y)
      (Expr.view4 g.bottom_width (Expr.linear g.dense Expr.input)))
    exact evalE_tanh_bounds [N, z] [N] inD lblD
      (Expr.conv g.final.conv (Expr.relu (Expr.norm (NormL.plain g.final.features g.final.bnw)
        X5))) idx
  · let g := ResnetGenerator32.init ch z ncat 4 w32
    let X0 : Expr := Expr.view4 4 (Expr.linear g.dense Expr.input)
    let X1 : Expr := Gblock.forward (Gblock.init ch ch none ncat 3 1 1 true w32.g1) X0 y
    let X2 : Expr := Gblock.forward (Gblock.init ch ch none ncat 3 1 1 true w32.g2) X1 y
    let X3 : Expr := Gblock.forward (Gblock.init ch ch none ncat 3 1 1 true w32.g3) X2 y
    have hlin : shapeOf [N, z] [N] (Expr.linear g.dense Expr.input) = some [N, 4 * 4 * ch] :=
      shapeOf_linear2 rfl
    have h0 : shapeOf [N, z] [N] X0 = some [N, ch, 4, 4] :=
      shapeOf_view4_eq hlin (by omega) (by omega)
    have h1 : shapeOf [N, z] [N] X1 = some [N, ch, 8, 8] :=
      gblock_shape h0 (by norm_num) (by norm_num) hy
    have h2 : shapeOf [N, z] [N] X2 = some [N, ch, 16, 16] :=
      gblock_shape h1 (by norm_num) (by norm_num) hy
    have h3 : shapeOf [N, z] [N] X3 = some [N, ch, 32, 32] :=
      gblock_shape h2 (by norm_num) (by norm_num) hy
    have h6 : shapeOf [N, z] [N] (Expr.norm (NormL.plain ch w32.fb) X3) =
        some [N, ch, 32, 32] := shapeOf_norm_plain h3
    have h7 : shapeOf [N, z] [N]
        (Expr.conv g.final.conv (Expr.relu (Expr.norm (NormL.plain ch w32.fb) X3))) =
        some [N, 3, 32, 32] :=
      shapeOf_conv_eq h6 (convOutDim_k3 32 (by norm_num)) (convOutDim_k3 32 (by norm_num))
    exact h7
  · let g := ResnetGenerator32.init ch z ncat 4 w32
    let X3 : Expr := (g.blocks.foldl (fun a b => Gblock.forward b a y)
      (Expr.view4 g.bottom_width (Expr.linear g.dense Expr.input)))
    exact evalE_tanh_bounds [N, z] [N] inD lblD
      (Expr.conv g.final.conv (Expr.relu (Expr.norm (NormL.plain g.final.features g.final.bnw)
        X3))) idx2

/-- C5 witness: the theorem applied to the concrete unconditional
configuration ch=64, z_dim=128, batch size 2 with zero weights. -/
theorem C5_generator_output_witness :
    (truthy none = false) ∧
    (shapeOf [2, 128] [2]
        ((ResnetGenerator128.init 64 128 none 4 gen128W0).forward Expr.input none) =
      some [2, 3, 128, 128]) :=
  ⟨rfl,
    (C5_generator_output 64 128 2 none none gen128W0 gen32W0 (fun _ => 0) (fun _ => 0)
      [0, 0, 0, 0] [0, 0, 0, 0] (fun h => nomatch h)).1⟩

/-- C7: every discriminator forward pass runs the input through the block
pipeline, activates, sum-pools over both spatial dimensions and applies
the spectrally normalised linear layer to get the base score; with a
label it adds the feature-wise sum of the elementwise product of the
per-class embedding vector with the pooled features; on a batch of N
images (128x128 or 32x32 per variant) the result has shape (N, 1). -/
theorem C7_discriminator_score (ch N ncat ch2 ncat2 : Nat) (w : Disc128W) (w2 : Disc32W)
    (d0 : ResnetDiscriminator) (x0 lab0 : Expr) (emb0 : EmbL) :
    (ResnetDiscriminator.forward d0 x0 none = Except.ok (discSpecBase d0 x0)) ∧
    (d0.l_y = some emb0 →
      ResnetDiscriminator.forward d0 x0 (some lab0) =
        Except.ok (discSpecCond d0 emb0 x0 lab0)) ∧
    (shapeOf [N, 3, 128, 128] [N]
      (discSpecBase (ResnetDiscriminator128.init ch ncat w) Expr.input) = some [N, 1]) ∧
    (0 < ncat →
      ∃ emb, (ResnetDiscriminator128.init ch ncat w).l_y = some emb ∧
        shapeOf [N, 3, 128, 128] [N]
          (discSpecCond (ResnetDiscriminator128.init ch ncat w) emb Expr.input
            Expr.labelInput) = some [N, 1]) ∧
    (shapeOf [N, 3, 32, 32] [N]
      (discSpecBase (ResnetDiscriminator32.init ch2 ncat2 w2) Expr.input) = some [N, 1]) ∧
    (0 < ncat2 →
      ∃ emb, (ResnetDiscriminator32.init ch2 ncat2 w2).l_y = some emb ∧
        shapeOf [N, 3, 32, 32] [N]
          (discSpecCond (ResnetDiscriminator32.init ch2 ncat2 w2) emb Expr.input
            Expr.labelInput) = some [N, 1]) := by
  let d := ResnetDiscriminator128.init ch ncat w
  let T0 : Expr := Block.forward (Block.init 3 ch none 3 1 1 true w.stem) Expr.input
  let T1 : Expr := Dblock.forward (Dblock.init ch (ch * 2) none 3 1 1 true w.d1) T0
  let T2 : Expr := Dblock.forward (Dblock.init (ch * 2) (ch * 4) none 3 1 1 true w.d2) T1
  let T3 : Expr := Dblock.forward (Dblock.init (ch * 4) (ch * 8) none 3 1 1 true w.d3) T2
  let T4 : Expr := Dblock.forward (Dblock.init (ch * 8) (ch * 16) none 3 1 1 true w.d4) T3
  let T5 : Expr := Dblock.forward (Dblock.init (ch * 16) (ch * 16) none 3 1 1 true w.d5) T4
  have ht0 : shapeOf [N, 3, 128, 128] [N] T0 = some [N, ch, 64, 64] :=
    stem_shape (show shapeOf [N, 3, 128, 128] [N] Expr.input = some [N, 3, 128, 128] from rfl)
      (by norm_num) (by norm_num)
  have ht1 : shapeOf [N, 3, 128, 128] [N] T1 = some [N, ch * 2, 32, 32] :=
    dblock_shape ht0 (by norm_num) (by norm_num)
  have ht2 : shapeOf [N, 3, 128, 128] [N] T2 = some [N, ch * 4, 16, 16] :=
    dblock_shape ht1 (by norm_num) (by norm_num)
  have ht3 : shapeOf [N, 3, 128, 128] [N] T3 = some [N, ch * 8, 8, 8] :=
    dblock_shape ht2 (by norm_num) (by norm_num)
  have ht4 : shapeOf [N, 3, 128, 128] [N] T4 = some [N, ch * 16, 4, 4] :=
    dblock_shape ht3 (by norm_num) (by norm_num)
  have ht5 : shapeOf [N, 3, 128, 128] [N] T5 = some [N, ch * 16, 2, 2] :=
    dblock_shape ht4 (by norm_num) (by norm_num)
  have hsum : shapeOf [N, 3, 128, 128] [N] (Expr.sumSpatial (Expr.relu T5)) =
      some [N, ch * 16] := shapeOf_sumSpatial_eq ht5
  have hlin : shapeOf [N, 3, 128, 128] [N]
      (Expr.linear d.l (Expr.sumSpatial (Expr.relu T5))) = some [N, 1] :=
    shapeOf_linear2 hsum
  let d32 := ResnetDiscriminator32.init ch2 ncat2 w2
  let S0 : Expr := Block.forward (Block.init 3 ch2 none 3 1 1 true w2.stem) Expr.input
  let S1 : Expr := Dblock.forward (Dblock.init ch2 ch2 none 3 1 1 true w2.d1) S0
  let S2 : Expr := Dblock.forward (Dblock.init ch2 ch2 none 3 1 1 true w2.d2) S1
  let S3 : Expr := Dblock.forward (Dblock.init ch2 ch2 none 3 1 1 true w2.d3) S2
  have hs0 : shapeOf [N, 3, 32, 32] [N] S0 = some [N, ch2, 16, 16] :=
    stem_shape (show shapeOf [N, 3, 32, 32] [N] Expr.input = some [N, 3, 32, 32] from rfl)
      (by norm_num) (by norm_num)
  have hs1 : shapeOf [N, 3, 32, 32] [N] S1 = some [N, ch2, 8, 8] :=
    dblock_shape hs0 (by norm_num) (by norm_num)
  have hs2 : shapeOf [N, 3, 32, 32] [N] S2 = some [N, ch2, 4, 4] :=
    dblock_shape hs1 (by norm_num) (by norm_num)
  have hs3 : shapeOf [N, 3, 32, 32] [N] S3 = some [N, ch2, 2, 2] :=
    dblock_shape hs2 (by norm_num) (by norm_num)
  have hsum32 : shapeOf [N, 3, 32, 32] [N] (Expr.sumSpatial (Expr.relu S3)) =
      some [N, ch2] := shapeOf_sumSpatial_eq hs3
  have hlin32 : shapeOf [N, 3, 32, 32] [N]
      (Expr.linear d32.l (Expr.sumSpatial (Expr.relu S3))) = some [N, 1] :=
    shapeOf_linear2 hsum32
  refine ⟨rfl, ?_, hlin, ?_, hlin32, ?_⟩
  · intro hly
    simp [ResnetDiscriminator.forward, discSpecCond, hly]
  · intro hpos
    refine ⟨⟨ncat, ch * 16, some Gain.one, true, w.lyw.w⟩, ?_, ?_⟩
    · simp [ResnetDiscriminator128.init, hpos]
    · have hemb : shapeOf [N, 3, 128, 128] [N]
          (Expr.embed ⟨ncat, ch * 16, some Gain.one, true, w.lyw.w⟩ Expr.labelInput) =
          some [N, ch * 16] := shapeOf_embed1 rfl
      have hmul := shapeOf_mul_eq hemb hsum
      have hone := shapeOf_sumDim1_eq hmul
      exact shapeOf_add_eq hlin hone
  · intro hpos
    refine ⟨⟨ncat2, ch2, none, true, w2.lyw.w⟩, ?_, ?_⟩
    · simp [ResnetDiscriminator32.init, hpos]
    · have hemb : shapeOf [N, 3, 32, 32] [N]
          (Expr.embed ⟨ncat2, ch2, none, true, w2.lyw.w⟩ Expr.labelInput) =
          some [N, ch2] := shapeOf_embed1 rfl
      have hmul := shapeOf_mul_eq hemb hsum32
      have hone := shapeOf_sumDim1_eq hmul
      exact shapeOf_add_eq hlin32 hone

/-- C7 witness: the theorem applied at ch=4, batch size 2, 3 classes,
zero weights, discharging the label-present hypotheses. -/
theorem C7_discriminator_score_witness :
    0 < 3 ∧
    (ResnetDiscriminator.forward (ResnetDiscriminator128.init 4 3 disc128W0) Expr.input
        (some Expr.labelInput) =
      Except.ok (discSpecCond (ResnetDiscriminator128.init 4 3 disc128W0)
        ⟨3, 64, some Gain.one, true, embW0.w⟩ Expr.input Expr.labelInput)) ∧
    (∃ emb, (ResnetDiscriminator128.init 4 3 disc128W0).l_y = some emb ∧
      shapeOf [2, 3, 128, 128] [2]
        (discSpecCond (ResnetDiscriminator128.init 4 3 disc128W0) emb Expr.input
          Expr.labelInput) = some [2, 1]) ∧
    (∃ emb, (ResnetDiscriminator32.init 5 3 disc32W0).l_y = some emb ∧
      shapeOf [2, 3, 32, 32] [2]
        (discSpecCond (ResnetDiscriminator32.init 5 3 disc32W0) emb Expr.input
          Expr.labelInput) = some [2, 1]) :=
  ⟨by norm_num,
    (C7_discriminator_score 4 2 3 5 3 disc128W0 disc32W0
      (ResnetDiscriminator128.init 4 3 disc128W0) Expr.input Expr.labelInput
      ⟨3, 64, some Gain.one, true, embW0.w⟩).2.1 rfl,
    (C7_discriminator_score 4 2 3 5 3 disc128W0 disc32W0
      (ResnetDiscriminator128.init 4 3 disc128W0) Expr.input Expr.labelInput
      ⟨3, 64, some Gain.one, true, embW0.w⟩).2.2.2.1 (by norm_num),
    (C7_discriminator_score 4 2 3 5 3 disc128W0 disc32W0
      (ResnetDiscriminator128.init 4 3 disc128W0) Expr.input Expr.labelInput
      ⟨3, 64, some Gain.one, true, embW0.w⟩).2.2.2.2.2 (by norm_num)⟩
